import Mathlib

/-!
Shallow embedding of the line-classification core of the template engine
(`src/lib.rs`).  Lines of template text are modelled as `List Char`; Rust's
panicking range slices (`s[a..b]`, `s[a..]`) are modelled by `Option`-valued
slicing functions where `none` stands for the panic, so `get_expression_data`
and `get_content_type` become `Option`-valued.  All other functions are
translated directly.
-/

namespace TemplateEngine

/-- Does the pattern `p` occur as a prefix of `l`?  (Helper for modelling
Rust's `str::contains`.) -/
def strStartsWith : List Char → List Char → Bool
  | _, [] => true
  | [], _ :: _ => false
  | c :: cs, p :: ps => c == p && strStartsWith cs ps

/-- Does the pattern `p` occur as a contiguous substring of `l`?  This models
Rust's `str::contains` used by `check_symbol_string` / `check_matching_pair`. -/
def strContains : List Char → List Char → Bool
  | [], pat => pat.isEmpty
  | c :: cs, pat => strStartsWith (c :: cs) pat || strContains cs pat

/-- Rust `TagType` (src/lib.rs lines 11-15). -/
inductive TagType
  | ForTag
  | IfTag
  deriving DecidableEq

/-- Rust `ExpressionData` (src/lib.rs lines 17-22).  The field `variable` is
renamed `var` because `variable` is a Lean keyword. -/
structure ExpressionData where
  head : Option (List Char)
  var : List Char
  tail : Option (List Char)
  deriving DecidableEq

/-- Rust `ContentType` (src/lib.rs lines 3-9). -/
inductive ContentType
  | Literal : List Char → ContentType
  | TemplateVariable : ExpressionData → ContentType
  | Tag : TagType → ContentType
  | Unrecognized
  deriving DecidableEq

/-- Rust `check_symbol_string` (src/lib.rs lines 61-63): substring containment. -/
def check_symbol_string (input_line symbol : List Char) : Bool :=
  strContains input_line symbol

/-- Rust `check_matching_pair` (src/lib.rs lines 69-71): both markers occur
somewhere in the line. -/
def check_matching_pair (input_line left right : List Char) : Bool :=
  strContains input_line left && strContains input_line right

/-- Loop of Rust `get_index_for_symbol` (src/lib.rs lines 74-87), with the
running index made explicit. -/
def get_index_for_symbol_aux : List Char → Char → Nat → Bool × Nat
  | [], _, _ => (false, 0)
  | c :: cs, symbol, idx =>
      if c == symbol then (true, idx) else get_index_for_symbol_aux cs symbol (idx + 1)

/-- Rust `get_index_for_symbol` (src/lib.rs lines 74-87): index of the first
occurrence of `symbol`, with an existence flag; `(false, 0)` when absent. -/
def get_index_for_symbol (input_line : List Char) (symbol : Char) : Bool × Nat :=
  get_index_for_symbol_aux input_line symbol 0

/-- Rust range slice `s[a..b]`: `none` models the panic on `a > b` or
`b > s.len()`. -/
def rustSlice (l : List Char) (a b : Nat) : Option (List Char) :=
  if a ≤ b ∧ b ≤ l.length then some ((l.drop a).take (b - a)) else none

/-- Rust open-ended slice `s[a..]`: `none` models the panic on `a > s.len()`. -/
def rustSliceFrom (l : List Char) (a : Nat) : Option (List Char) :=
  if a ≤ l.length then some (l.drop a) else none

/-- Rust `get_expression_data` (src/lib.rs lines 90-104).  The existence flags
returned by `get_index_for_symbol` are discarded exactly as in the source
(`_h`, `_j`); the three unchecked slices become `Option` steps, so the result
is `none` precisely when the Rust code panics with an index fault. -/
def get_expression_data (input_line : List Char) : Option ExpressionData :=
  let i := (get_index_for_symbol input_line '{').2
  match rustSlice input_line 0 i with
  | none => none
  | some head =>
    let k := (get_index_for_symbol input_line '}').2
    match rustSlice input_line (i + 1 + 1) k with
    | none => none
    | some v =>
      match rustSliceFrom input_line (k + 1 + 1) with
      | none => none
      | some tail => some { head := some head, var := v, tail := some tail }

/-- Local `is_tag_expression` of Rust `get_content_type` (src/lib.rs lines 26-27). -/
def is_tag_expression (input_line : List Char) : Bool :=
  check_matching_pair input_line "\x7b%".toList "%\x7d".toList

/-- Local `is_for_tag` of Rust `get_content_type` (src/lib.rs lines 29-32):
`contains "for" && contains "in" || contains "endfor"`. -/
def is_for_tag (input_line : List Char) : Bool :=
  check_symbol_string input_line "for".toList && check_symbol_string input_line "in".toList
    || check_symbol_string input_line "endfor".toList

/-- Local `is_if_tag` of Rust `get_content_type` (src/lib.rs lines 34-35):
`contains "if" || contains "endif"`. -/
def is_if_tag (input_line : List Char) : Bool :=
  check_symbol_string input_line "if".toList || check_symbol_string input_line "endif".toList

/-- Local `is_template_variable` of Rust `get_content_type` (src/lib.rs line 37). -/
def is_template_variable (input_line : List Char) : Bool :=
  check_matching_pair input_line "\x7b\x7b".toList "\x7d\x7d".toList

/-- Rust `get_content_type` (src/lib.rs lines 25-54).  `none` models a panic
propagated out of `get_expression_data`. -/
def get_content_type (input_line : List Char) : Option ContentType :=
  if is_tag_expression input_line && is_for_tag input_line then
    some (ContentType.Tag TagType.ForTag)
  else if is_tag_expression input_line && is_if_tag input_line then
    some (ContentType.Tag TagType.IfTag)
  else if is_template_variable input_line then
    (get_expression_data input_line).map ContentType.TemplateVariable
  else if !is_tag_expression input_line && !is_template_variable input_line then
    some (ContentType.Literal input_line)
  else
    some ContentType.Unrecognized

/-- Rust `generate_html_template_var` (src/lib.rs lines 106-122).  The
`HashMap<String, String>` context is modelled as an association list with
`List.lookup` playing the role of `HashMap::get`. -/
def generate_html_template_var (content : ExpressionData)
    (context : List (List Char × List Char)) : List Char :=
  let html : List Char := []
  let html := match content.head with
    | some h => html ++ h
    | none => html
  let html := match List.lookup content.var context with
    | some val => html ++ val
    | none => html
  match content.tail with
  | some t => html ++ t
  | none => html

/-- Lines whose characters include neither brace, used to state the
well-formedness hypotheses of the spec's round-trip property. -/
def brace_free (l : List Char) : Bool :=
  l.all fun c => !(c == '{') && !(c == '}')

/-! Helper lemmas about substring containment and first-index search. -/

theorem strStartsWith_append (p r : List Char) : strStartsWith (p ++ r) p = true := by
  induction p with
  | nil => simp [strStartsWith]
  | cons c cs ih => simp [strStartsWith, ih]

theorem strContains_of_startsWith (l p : List Char) (h : strStartsWith l p = true) :
    strContains l p = true := by
  cases l with
  | nil =>
    cases p with
    | nil => rfl
    | cons c cs => simp [strStartsWith] at h
  | cons c cs => simp [strContains, h]

theorem strContains_append_right (a l p : List Char) (h : strContains l p = true) :
    strContains (a ++ l) p = true := by
  induction a with
  | nil => simpa using h
  | cons c cs ih => simp [strContains, ih]

/-- A list of the shape `a ++ (p ++ b)` contains `p` as a substring. -/
theorem strContains_middle (a p b : List Char) : strContains (a ++ (p ++ b)) p = true :=
  strContains_append_right a (p ++ b) p
    (strContains_of_startsWith (p ++ b) p (strStartsWith_append p b))

/-- When no character of `a` equals `sym`, the index search over
`a ++ sym :: r` started at `n` finds `sym` at offset `n + a.length`. -/
theorem get_index_for_symbol_aux_append (a : List Char) (sym : Char) (r : List Char)
    (h : a.all (fun c => !(c == sym)) = true) (n : Nat) :
    get_index_for_symbol_aux (a ++ sym :: r) sym n = (true, n + a.length) := by
  induction a generalizing n with
  | nil => simp [get_index_for_symbol_aux]
  | cons c cs ih =>
    simp only [List.all_cons, Bool.and_eq_true, Bool.not_eq_true'] at h
    have step : get_index_for_symbol_aux ((c :: cs) ++ sym :: r) sym n
        = get_index_for_symbol_aux (cs ++ sym :: r) sym (n + 1) := by
      simp [get_index_for_symbol_aux, h.1]
    rw [step, ih h.2]
    simp only [Prod.mk.injEq, List.length_cons, true_and]
    omega

/-! Claim theorems. -/

/-- C1: the classifier detects interpolation delimiters in `"{}{{}}"`, the
decomposer cannot locate well-formed boundaries (the first `}` is at index 1,
before index `i + 2 = 2`), and instead of reporting a `MalformedExpression`
failure the code commits an index fault: the slice `input_line[2..1]` panics,
modelled by `none`.  There is no `MalformedExpression` (or any error) value
anywhere in the code, so the claimed reported failure does not exist. -/
theorem c1_index_fault_instead_of_reported_failure :
    is_template_variable "\x7b\x7d\x7b\x7b\x7d\x7d".toList = true
    ∧ get_expression_data "\x7b\x7d\x7b\x7b\x7d\x7d".toList = none
    ∧ get_content_type "\x7b\x7d\x7b\x7b\x7d\x7d".toList = none := by decide

/-- C2 counterexample: on the line `"}}{{"` both interpolation delimiters are
present, so `get_content_type` reaches the decomposer, whose slice
`input_line[4..0]` panics (modelled `none`): classification does not totally
return a `LineCategory` value on every input. -/
theorem c2_counterexample :
    is_template_variable "\x7d\x7d\x7b\x7b".toList = true
    ∧ get_content_type "\x7d\x7d\x7b\x7b".toList = none := by decide

/-- C2 (amended): `get_content_type` returns a classification for every input
line except exactly those on which the tag branches do not fire, interpolation
delimiters are detected, and `get_expression_data`'s unchecked slicing faults;
on those lines the code panics (modelled `none`) instead of classifying. -/
theorem c2_none_iff_decomposer_faults (l : List Char) :
    get_content_type l = none ↔
      (is_tag_expression l && is_for_tag l) = false
      ∧ (is_tag_expression l && is_if_tag l) = false
      ∧ is_template_variable l = true
      ∧ get_expression_data l = none := by
  unfold get_content_type
  cases h1 : is_tag_expression l <;> cases h2 : is_for_tag l <;>
    cases h3 : is_if_tag l <;> cases h4 : is_template_variable l <;>
      simp [Option.map_eq_none']

/-- C4 counterexample: `"{%xy%}{{z}}"` contains both the tag-delimiter pair
and the interpolation-delimiter pair, yet it is resolved by the interpolation
branch (no tag keyword is present), not by a tag branch. -/
theorem c4_counterexample :
    is_tag_expression "\x7b%xy%\x7d\x7b\x7bz\x7d\x7d".toList = true
    ∧ is_template_variable "\x7b%xy%\x7d\x7b\x7bz\x7d\x7d".toList = true
    ∧ get_content_type "\x7b%xy%\x7d\x7b\x7bz\x7d\x7d".toList
        = some (ContentType.TemplateVariable ⟨some [], "xy%".toList, some "\x7bz\x7d\x7d".toList⟩)
    ∧ get_content_type "\x7b%xy%\x7d\x7b\x7bz\x7d\x7d".toList ≠ some (ContentType.Tag TagType.ForTag)
    ∧ get_content_type "\x7b%xy%\x7d\x7b\x7bz\x7d\x7d".toList ≠ some (ContentType.Tag TagType.IfTag) := by decide

/-- C4 (amended): for every line containing both the tag-delimiter pair and
the interpolation-delimiter pair, and additionally satisfying a tag keyword
condition, the tag branches take priority over the interpolation branch
because they are checked first: the result is the corresponding `Tag`. -/
theorem c4_tag_branches_take_priority (l : List Char)
    (htag : is_tag_expression l = true)
    (_hvar : is_template_variable l = true)
    (hkw : (is_for_tag l || is_if_tag l) = true) :
    get_content_type l
      = some (ContentType.Tag (if is_for_tag l then TagType.ForTag else TagType.IfTag)) := by
  unfold get_content_type
  cases h2 : is_for_tag l with
  | true => simp [htag, h2]
  | false =>
    have h3 : is_if_tag l = true := by
      rw [h2] at hkw
      simpa using hkw
    simp [htag, h2, h3]

/-- C4 witness: a concrete line with both delimiter pairs and loop keywords
is classified as a loop tag. -/
theorem c4_witness :
    get_content_type "\x7b% for a in b \x7b\x7bx\x7d\x7d %\x7d".toList
      = some (ContentType.Tag
          (if is_for_tag "\x7b% for a in b \x7b\x7bx\x7d\x7d %\x7d".toList then TagType.ForTag
           else TagType.IfTag)) :=
  c4_tag_branches_take_priority "\x7b% for a in b \x7b\x7bx\x7d\x7d %\x7d".toList
    (by decide) (by decide) (by decide)

/-- C5 counterexample: `"{%for in if%}"` contains `"{%"`, `"%}"` and `"if"`,
but the for-branch is checked first and also matches, so the result is
`Tag(ForTag)`, not the claimed `Tag(IfTag)`. -/
theorem c5_counterexample :
    check_matching_pair "\x7b%for in if%\x7d".toList "\x7b%".toList "%\x7d".toList = true
    ∧ check_symbol_string "\x7b%for in if%\x7d".toList "if".toList = true
    ∧ get_content_type "\x7b%for in if%\x7d".toList = some (ContentType.Tag TagType.ForTag)
    ∧ get_content_type "\x7b%for in if%\x7d".toList ≠ some (ContentType.Tag TagType.IfTag) := by
  decide

/-- C5 (amended): for every text containing the tag-delimiter pair together
with `"if"` or `"endif"`, and not satisfying the loop-keyword condition
(`"for"` and `"in"`, or `"endfor"`), classification returns `Tag(IfTag)`. -/
theorem c5_if_tag_when_loop_keywords_absent (l : List Char)
    (htag : is_tag_expression l = true)
    (hif : is_if_tag l = true)
    (hnfor : is_for_tag l = false) :
    get_content_type l = some (ContentType.Tag TagType.IfTag) := by
  unfold get_content_type
  simp [htag, hif, hnfor]

/-- C5 witness: the conditional-tag classification at a concrete line. -/
theorem c5_witness : get_content_type "\x7b% if name %\x7d".toList
    = some (ContentType.Tag TagType.IfTag) :=
  c5_if_tag_when_loop_keywords_absent "\x7b% if name %\x7d".toList
    (by decide) (by decide) (by decide)

/-- C6: for every text containing the tag-delimiter pair together with both
`"for"` and `"in"`, or with `"endfor"`, classification returns `Tag(ForTag)`:
this is the first branch of `get_content_type`, so it fires unconditionally
once its flags hold. -/
theorem c6_for_tag (l : List Char)
    (htag : is_tag_expression l = true)
    (hfor : is_for_tag l = true) :
    get_content_type l = some (ContentType.Tag TagType.ForTag) := by
  unfold get_content_type
  simp [htag, hfor]

/-- C6 witness: the loop-tag classification at a concrete line. -/
theorem c6_witness : get_content_type "\x7b% for name in names %\x7d".toList
    = some (ContentType.Tag TagType.ForTag) :=
  c6_for_tag "\x7b% for name in names %\x7d".toList (by decide) (by decide)

/-- C7: for every text in which neither the tag-delimiter pair nor the
interpolation-delimiter pair is present, classification returns `Literal`
carrying the input text unchanged. -/
theorem c7_literal (l : List Char)
    (htag : is_tag_expression l = false)
    (hvar : is_template_variable l = false) :
    get_content_type l = some (ContentType.Literal l) := by
  unfold get_content_type
  simp [htag, hvar]

/-- C7 witness: the literal classification at a concrete line. -/
theorem c7_witness : get_content_type "<h1>Hello world</h1>".toList
    = some (ContentType.Literal "<h1>Hello world</h1>".toList) :=
  c7_literal "<h1>Hello world</h1>".toList (by decide) (by decide)

/-- C8: rendering concatenates `head`, the value bound to `var` if present
(else the empty string), and `tail`; a missing binding is not an error, and
with the empty binding mapping the result is always `head ++ tail`. -/
theorem c8_render_concatenation (content : ExpressionData)
    (context : List (List Char × List Char)) :
    generate_html_template_var content context
      = content.head.getD [] ++ (List.lookup content.var context).getD []
          ++ content.tail.getD []
    ∧ generate_html_template_var content []
      = content.head.getD [] ++ content.tail.getD [] := by
  obtain ⟨h, v, t⟩ := content
  constructor
  · cases h <;> cases t <;> cases hl : List.lookup v context <;>
      simp [generate_html_template_var, hl]
  · cases h <;> cases t <;> simp [generate_html_template_var, List.lookup]

/-- C9: whenever `get_expression_data` returns a value, both `head` and
`tail` are `some` (possibly of the empty string), never `none`. -/
theorem c9_head_tail_always_some (l : List Char) (e : ExpressionData)
    (h : get_expression_data l = some e) :
    e.head.isSome = true ∧ e.tail.isSome = true := by
  simp only [get_expression_data] at h
  split at h
  · simp at h
  · split at h
    · simp at h
    · split at h
      · simp at h
      · injection h with h
        subst h
        simp

/-- C9 witness: the decomposition of a concrete well-formed line has `some`
head and `some` tail. -/
theorem c9_witness :
    (ExpressionData.mk (some "Hi ".toList) "name".toList
        (some " ,welcome".toList)).head.isSome = true
    ∧ (ExpressionData.mk (some "Hi ".toList) "name".toList
        (some " ,welcome".toList)).tail.isSome = true :=
  c9_head_tail_always_some "Hi \x7b\x7bname\x7d\x7d ,welcome".toList
    ⟨some "Hi ".toList, "name".toList, some " ,welcome".toList⟩ (by decide)

/-- C10: rendering depends on the binding mapping only through the value
bound to `var`: two mappings that agree there (both absent, or both bound to
the same value) render identically. -/
theorem c10_render_depends_only_on_var (content : ExpressionData)
    (ctx₁ ctx₂ : List (List Char × List Char))
    (h : List.lookup content.var ctx₁ = List.lookup content.var ctx₂) :
    generate_html_template_var content ctx₁ = generate_html_template_var content ctx₂ := by
  simp only [generate_html_template_var, h]

/-- C10 witness: two concrete mappings agreeing on `"name"` but differing
elsewhere render the same string. -/
theorem c10_witness :
    List.lookup "name".toList [("name".toList, "Sam".toList)]
      = List.lookup "name".toList [("other".toList, "X".toList), ("name".toList, "Sam".toList)]
    ∧ generate_html_template_var ⟨some "Hi ".toList, "name".toList, some "!".toList⟩
        [("name".toList, "Sam".toList)]
      = generate_html_template_var ⟨some "Hi ".toList, "name".toList, some "!".toList⟩
        [("other".toList, "X".toList), ("name".toList, "Sam".toList)] :=
  ⟨by decide,
   c10_render_depends_only_on_var ⟨some "Hi ".toList, "name".toList, some "!".toList⟩
     [("name".toList, "Sam".toList)]
     [("other".toList, "X".toList), ("name".toList, "Sam".toList)] (by decide)⟩

/-- C3 counterexample: the brace-free parts `head = ""`, `variable = "%if%"`,
`tail = ""` assemble to `"{{%if%}}"`, which contains `"{%"`, `"%}"` and
`"if"`, so the conditional-tag branch fires and classification returns
`Tag(IfTag)`, not the claimed `Interpolation` of those parts. -/
theorem c3_counterexample :
    brace_free "%if%".toList = true
    ∧ get_content_type (([] : List Char) ++ "\x7b\x7b".toList ++ "%if%".toList
        ++ "\x7d\x7d".toList ++ ([] : List Char)) = some (ContentType.Tag TagType.IfTag)
    ∧ get_content_type (([] : List Char) ++ "\x7b\x7b".toList ++ "%if%".toList
        ++ "\x7d\x7d".toList ++ ([] : List Char))
      ≠ some (ContentType.TemplateVariable ⟨some [], "%if%".toList, some []⟩) := by decide

/-- C3 (amended): for brace-free `head`, `v`, `tail`, provided the assembled
line is not captured by a tag branch (it does not contain both tag delimiters
together with tag keywords), classification of
`head ++ "{{" ++ v ++ "}}" ++ tail` returns `Interpolation` with exactly
those parts, and reassembling the returned parts reconstructs the line. -/
theorem c3_interpolation_round_trip (head v tail : List Char)
    (hh : brace_free head = true) (hv : brace_free v = true) (_ht : brace_free tail = true)
    (htag : (is_tag_expression (head ++ "\x7b\x7b".toList ++ v ++ "\x7d\x7d".toList ++ tail)
        && (is_for_tag (head ++ "\x7b\x7b".toList ++ v ++ "\x7d\x7d".toList ++ tail)
            || is_if_tag (head ++ "\x7b\x7b".toList ++ v ++ "\x7d\x7d".toList ++ tail))) = false) :
    get_content_type (head ++ "\x7b\x7b".toList ++ v ++ "\x7d\x7d".toList ++ tail)
      = some (ContentType.TemplateVariable ⟨some head, v, some tail⟩)
    ∧ (some head).getD [] ++ "\x7b\x7b".toList ++ v ++ "\x7d\x7d".toList ++ (some tail).getD []
      = head ++ "\x7b\x7b".toList ++ v ++ "\x7d\x7d".toList ++ tail := by
  refine ⟨?_, rfl⟩
  have e2 : "\x7b\x7b".toList = ['{', '{'] := rfl
  have e3 : "\x7d\x7d".toList = ['}', '}'] := rfl
  have hh1 : head.all (fun c => !(c == '{')) = true := by
    simp only [brace_free, List.all_eq_true, Bool.and_eq_true] at hh ⊢
    intro c hc
    exact (hh c hc).1
  have hclose : (head ++ '{' :: '{' :: v).all (fun c => !(c == '}')) = true := by
    simp only [brace_free, List.all_eq_true, Bool.and_eq_true] at hh hv
    simp only [List.all_append, List.all_cons, List.all_eq_true, Bool.and_eq_true]
    refine ⟨fun c hc => (hh c hc).2, by decide, by decide, fun c hc => (hv c hc).2⟩
  have hA1 : head ++ "\x7b\x7b".toList ++ v ++ "\x7d\x7d".toList ++ tail
      = head ++ '{' :: ('{' :: (v ++ '}' :: ('}' :: tail))) := by
    simp [e2, e3]
  have hA2 : head ++ "\x7b\x7b".toList ++ v ++ "\x7d\x7d".toList ++ tail
      = (head ++ '{' :: '{' :: v) ++ '}' :: ('}' :: tail) := by
    simp [e2, e3]
  have hi : get_index_for_symbol (head ++ "\x7b\x7b".toList ++ v ++ "\x7d\x7d".toList ++ tail) '{'
      = (true, head.length) := by
    rw [hA1]
    unfold get_index_for_symbol
    rw [get_index_for_symbol_aux_append head '{' _ hh1 0]
    simp
  have hk : get_index_for_symbol (head ++ "\x7b\x7b".toList ++ v ++ "\x7d\x7d".toList ++ tail) '}'
      = (true, head.length + 2 + v.length) := by
    rw [hA2]
    unfold get_index_for_symbol
    rw [get_index_for_symbol_aux_append (head ++ '{' :: '{' :: v) '}' _ hclose 0]
    simp only [Prod.mk.injEq, List.length_append, List.length_cons, true_and]
    omega
  have hA3 : head ++ "\x7b\x7b".toList ++ v ++ "\x7d\x7d".toList ++ tail
      = (head ++ '{' :: '{' :: []) ++ (v ++ '}' :: '}' :: tail) := by
    simp [e2, e3]
  have hA4 : head ++ "\x7b\x7b".toList ++ v ++ "\x7d\x7d".toList ++ tail
      = (head ++ '{' :: '{' :: (v ++ '}' :: '}' :: [])) ++ tail := by
    simp [e2, e3]
  have hslice1 : rustSlice (head ++ "\x7b\x7b".toList ++ v ++ "\x7d\x7d".toList ++ tail) 0 head.length
      = some head := by
    rw [hA1]
    unfold rustSlice
    rw [if_pos]
    · congr 1
      rw [List.drop_zero, Nat.sub_zero]
      exact List.take_left' rfl
    · exact ⟨Nat.zero_le _, by simp⟩
  have hslice2 : rustSlice (head ++ "\x7b\x7b".toList ++ v ++ "\x7d\x7d".toList ++ tail)
      (head.length + 1 + 1) (head.length + 2 + v.length) = some v := by
    rw [hA3]
    unfold rustSlice
    rw [if_pos]
    · congr 1
      have hdl : List.drop (head.length + 1 + 1)
          ((head ++ '{' :: '{' :: []) ++ (v ++ '}' :: '}' :: tail))
          = v ++ '}' :: '}' :: tail :=
        List.drop_left' (by simp)
      rw [hdl]
      rw [show head.length + 2 + v.length - (head.length + 1 + 1) = v.length by omega]
      exact List.take_left' rfl
    · constructor
      · omega
      · simp only [List.length_append, List.length_cons]
        omega
  have hslice3 : rustSliceFrom (head ++ "\x7b\x7b".toList ++ v ++ "\x7d\x7d".toList ++ tail)
      (head.length + 2 + v.length + 1 + 1) = some tail := by
    rw [hA4]
    unfold rustSliceFrom
    rw [if_pos]
    · congr 1
      refine List.drop_left' ?_
      simp only [List.length_append, List.length_cons, List.length_nil]
      omega
    · simp only [List.length_append, List.length_cons, List.length_nil]
      omega
  have hexp : get_expression_data (head ++ "\x7b\x7b".toList ++ v ++ "\x7d\x7d".toList ++ tail)
      = some ⟨some head, v, some tail⟩ := by
    simp only [get_expression_data, hi, hk, hslice1, hslice2, hslice3]
  have hA5 : head ++ "\x7b\x7b".toList ++ v ++ "\x7d\x7d".toList ++ tail
      = head ++ ("\x7b\x7b".toList ++ (v ++ ("\x7d\x7d".toList ++ tail))) := by
    simp
  have hA6 : head ++ "\x7b\x7b".toList ++ v ++ "\x7d\x7d".toList ++ tail
      = (head ++ "\x7b\x7b".toList ++ v) ++ ("\x7d\x7d".toList ++ tail) := by
    simp
  have hvar1 : is_template_variable (head ++ "\x7b\x7b".toList ++ v ++ "\x7d\x7d".toList ++ tail)
      = true := by
    unfold is_template_variable check_matching_pair
    have h1 : strContains (head ++ "\x7b\x7b".toList ++ v ++ "\x7d\x7d".toList ++ tail) "\x7b\x7b".toList
        = true := by
      rw [hA5]
      exact strContains_middle head "\x7b\x7b".toList (v ++ ("\x7d\x7d".toList ++ tail))
    have h2 : strContains (head ++ "\x7b\x7b".toList ++ v ++ "\x7d\x7d".toList ++ tail) "\x7d\x7d".toList
        = true := by
      rw [hA6]
      exact strContains_middle (head ++ "\x7b\x7b".toList ++ v) "\x7d\x7d".toList tail
    rw [h1, h2]
    rfl
  have hb1 : (is_tag_expression (head ++ "\x7b\x7b".toList ++ v ++ "\x7d\x7d".toList ++ tail)
      && is_for_tag (head ++ "\x7b\x7b".toList ++ v ++ "\x7d\x7d".toList ++ tail)) = false := by
    cases hte : is_tag_expression (head ++ "\x7b\x7b".toList ++ v ++ "\x7d\x7d".toList ++ tail) with
    | false => rfl
    | true =>
      cases hfor : is_for_tag (head ++ "\x7b\x7b".toList ++ v ++ "\x7d\x7d".toList ++ tail) with
      | false => rfl
      | true =>
        rw [hte, hfor] at htag
        simp at htag
  have hb2 : (is_tag_expression (head ++ "\x7b\x7b".toList ++ v ++ "\x7d\x7d".toList ++ tail)
      && is_if_tag (head ++ "\x7b\x7b".toList ++ v ++ "\x7d\x7d".toList ++ tail)) = false := by
    cases hte : is_tag_expression (head ++ "\x7b\x7b".toList ++ v ++ "\x7d\x7d".toList ++ tail) with
    | false => rfl
    | true =>
      cases hif : is_if_tag (head ++ "\x7b\x7b".toList ++ v ++ "\x7d\x7d".toList ++ tail) with
      | false => rfl
      | true =>
        rw [hte, hif] at htag
        simp at htag
  unfold get_content_type
  rw [hb1, hb2, hvar1, hexp]
  simp

/-- C3 witness: the round-trip property at the concrete parts
`"Hi "`, `"name"`, `" ,welcome"`. -/
theorem c3_witness :
    get_content_type ("Hi ".toList ++ "\x7b\x7b".toList ++ "name".toList
        ++ "\x7d\x7d".toList ++ " ,welcome".toList)
      = some (ContentType.TemplateVariable
          ⟨some "Hi ".toList, "name".toList, some " ,welcome".toList⟩)
    ∧ (some "Hi ".toList).getD [] ++ "\x7b\x7b".toList ++ "name".toList ++ "\x7d\x7d".toList
        ++ (some " ,welcome".toList).getD []
      = "Hi ".toList ++ "\x7b\x7b".toList ++ "name".toList ++ "\x7d\x7d".toList ++ " ,welcome".toList :=
  c3_interpolation_round_trip "Hi ".toList "name".toList " ,welcome".toList
    (by decide) (by decide) (by decide) (by decide)

end TemplateEngine
